import Mathlib

/-!
Shallow embedding of the query-to-viewmodel transformation pipeline of the
`nova` air-quality dashboard (file `frontend/src/components/QueryDashboard.js`
and the heatmap generator in the `DynamicVisualization` component).

JavaScript numbers are modelled as `ℚ` (with `Option` used where a value can
be `undefined`/`null`, and `none` also standing for `NaN` where it can arise),
strings as Lean `String`, and `Math.random()` as an injected stream
`rand : Nat → ℚ` of values in `[0, 1)` indexed by call order.
-/

/-! Section: JavaScript primitives -/

/-- ASCII digit test, the character class `\d` of a JavaScript regex. -/
def isDigitChar (c : Char) : Bool := '0' ≤ c && c ≤ '9'

/-- Common whitespace characters of the JavaScript class `\s`. -/
def isSpaceChar (c : Char) : Bool :=
  c = ' ' || c = '\t' || c = '\n' || c = '\r'

/-- Decimal value of a list of digit characters (most significant first). -/
def digitsToNat (l : List Char) : Nat :=
  l.foldl (fun acc c => 10 * acc + (c.toNat - '0'.toNat)) 0

/-- JavaScript `parseInt` restricted to the inputs the component feeds it
(regex capture groups and `split(':')[0]` heads): the longest digit prefix is
read as a decimal number, and `none` models the `NaN` result when the string
does not start with a digit (e.g. `parseInt("pm")`). -/
def jsParseInt (s : String) : Option Nat :=
  let ds := s.toList.takeWhile isDigitChar
  if ds.isEmpty then none else some (digitsToNat ds)

/-- JavaScript `n.toString().padStart(2, '0')` for a natural number. -/
def pad2 (n : Nat) : String :=
  let s := toString n
  if s.length < 2 then "0" ++ s else s

/-- JavaScript `i.toString().padStart(2, '0')` for an integer. -/
def intPad2 (i : Int) : String :=
  let s := toString i
  if s.length < 2 then "0" ++ s else s

/-- Rendering of an `Option Nat`-modelled JavaScript number by
`toString().padStart(2, '0')`: `NaN` prints as `"NaN"` (length 3, no pad). -/
def optNumPad2 : Option Nat → String
  | none => "NaN"
  | some n => pad2 n

/-- JavaScript `Math.round`: round half towards positive infinity. -/
def jsRound (q : ℚ) : ℤ := ⌊q + 1/2⌋

/-- ASCII lowercasing, JavaScript `String.prototype.toLowerCase` on the
ASCII strings this component handles. -/
def lowerStr (s : String) : String := String.mk (s.toList.map Char.toLower)

/-- Does `l` start with `p`? -/
def startsWithL : List Char → List Char → Bool
  | _, [] => true
  | [], _ :: _ => false
  | a :: as, b :: bs => a = b && startsWithL as bs

/-- Does `l` contain `p` as a contiguous substring?  JavaScript
`String.prototype.includes`. -/
def hasSubstr : List Char → List Char → Bool
  | [], p => p.isEmpty
  | a :: as, p => startsWithL (a :: as) p || hasSubstr as p

/-- String version of `hasSubstr` (`text.includes(pat)`). -/
def hasSubstrS (text pat : String) : Bool := hasSubstr text.toList pat.toList

/-- JavaScript `a || b` on numbers modelled as `Option ℚ`: falsy values
(absent, or `0`) fall through to the right operand. -/
def orNum (x : Option ℚ) (y : ℚ) : ℚ :=
  match x with
  | some v => if v = 0 then y else v
  | none => y

/-- JavaScript `a || b` on strings modelled as `Option String`: falsy values
(absent, or the empty string) fall through. -/
def jsOrStr (a b : Option String) : Option String :=
  match a with
  | some s => if s = "" then b else some s
  | none => b

/-- Is an `Option ℚ`-modelled JavaScript number truthy? -/
def numTruthy (x : Option ℚ) : Bool :=
  match x with
  | some v => v ≠ 0
  | none => false

/-- Is an `Option String`-modelled JavaScript string truthy? -/
def strTruthy (x : Option String) : Bool :=
  match x with
  | some s => s ≠ ""
  | none => false

/-! Section: The time-expression parser (`extractTimeFromQuery`) -/

/-- A JavaScript value, as far as the component's props can carry one:
the query prop is normally a string or `null`/`undefined`, but nothing
prevents a caller from passing a number or a boolean. -/
inductive JSVal where
  | nullV : JSVal
  | undef : JSVal
  | str : String → JSVal
  | num : ℚ → JSVal
  | boolV : Bool → JSVal
deriving DecidableEq

/-- JavaScript truthiness of a `JSVal`. -/
def jsTruthy : JSVal → Bool
  | .nullV => false
  | .undef => false
  | .str s => s ≠ ""
  | .num q => q ≠ 0
  | .boolV b => b

/-- Outcome of calling a JavaScript function: a returned value or a thrown
`TypeError` (calling `.match` on a non-string). -/
inductive JSOutcome where
  | ret : Option String → JSOutcome
  | throwTypeError : JSOutcome
deriving DecidableEq

/-- The capture groups of a successful regex match: `match[1]`, `match[2]`,
`match[3]` (a group that did not participate is `none`, i.e. `undefined`). -/
structure MatchResult where
  g1 : String
  g2 : Option String
  g3 : Option String
deriving DecidableEq

/-- The alternatives of the greedy quantifier `(\d{1,2})` at the current
position, in the order a backtracking engine tries them: two digits first,
then one digit.  Each alternative carries the captured digits and the rest. -/
def digitAlts (l : List Char) : List (List Char × List Char) :=
  match l with
  | a :: b :: rest =>
    if isDigitChar a then
      if isDigitChar b then [([a, b], rest), ([a], b :: rest)]
      else [([a], b :: rest)]
    else []
  | [a] => if isDigitChar a then [([a], [])] else []
  | [] => []

/-- Try the quantifier alternatives in order, continuing each with `k`;
the first alternative whose continuation succeeds wins (backtracking). -/
def tryAlts (alts : List (List Char × List Char))
    (k : List Char → List Char → Option MatchResult) : Option MatchResult :=
  match alts with
  | [] => none
  | (d, rest) :: more =>
    match k d rest with
    | some r => some r
    | none => tryAlts more k

/-- The alternation `(am|pm)` with the `i` flag at the current position;
returns the captured text with its original casing. -/
def amPmAt : List Char → Option String
  | c1 :: c2 :: _ =>
    if (c1 = 'a' || c1 = 'A' || c1 = 'p' || c1 = 'P') &&
       (c2 = 'm' || c2 = 'M') then some (String.mk [c1, c2]) else none
  | _ => none

/-- Attempt of the pattern `/(\d{1,2}):(\d{2})\s*(am|pm)/i` at the current
position.  `\s*` is maximal-munch here, which agrees with the backtracking
semantics because no whitespace character can start `am|pm`. -/
def p1At (l : List Char) : Option MatchResult :=
  tryAlts (digitAlts l) fun d rest =>
    match rest with
    | ':' :: c :: e :: rest2 =>
      if isDigitChar c && isDigitChar e then
        match amPmAt (rest2.dropWhile isSpaceChar) with
        | some ap => some ⟨String.mk d, some (String.mk [c, e]), some ap⟩
        | none => none
      else none
    | _ => none

/-- Attempt of the pattern `/(\d{1,2})\s*(am|pm)/i` at the current
position. -/
def p2At (l : List Char) : Option MatchResult :=
  tryAlts (digitAlts l) fun d rest =>
    match amPmAt (rest.dropWhile isSpaceChar) with
    | some ap => some ⟨String.mk d, some ap, none⟩
    | none => none

/-- Attempt of the pattern `/(\d{1,2}):(\d{2})/` at the current position. -/
def p3At (l : List Char) : Option MatchResult :=
  tryAlts (digitAlts l) fun d rest =>
    match rest with
    | ':' :: c :: e :: _ =>
      if isDigitChar c && isDigitChar e then
        some ⟨String.mk d, some (String.mk [c, e]), none⟩
      else none
    | _ => none

/-- Leftmost-match driver: `String.prototype.match` without the `g` flag
tries the pattern at each position from the left and returns the first
success. -/
def scanMatch (m : List Char → Option MatchResult) : List Char → Option MatchResult
  | [] => m []
  | l@(_ :: rest) =>
    match m l with
    | some r => some r
    | none => scanMatch m rest

/-- The conversion block of `extractTimeFromQuery` (QueryDashboard.js
lines 60–70): `hour = parseInt(match[1])`,
`minute = match[2] ? parseInt(match[2]) : 0`,
`meridiem = match[3] || match[2]`, the pm/am hour adjustment, and the
zero-padded rendering.  `none` models `NaN`. -/
def convertMatch (m : MatchResult) : String :=
  let hour0 : Option Nat := jsParseInt m.g1
  let minute : Option Nat :=
    match m.g2 with
    | some s => if s = "" then some 0 else jsParseInt s
    | none => some 0
  let meridiem := jsOrStr m.g3 m.g2
  let isPmB : Bool := match meridiem with
    | some s => lowerStr s = "pm"
    | none => false
  let isAmB : Bool := match meridiem with
    | some s => lowerStr s = "am"
    | none => false
  let hour : Option Nat :=
    if isPmB && hour0 ≠ some 12 then hour0.map (· + 12)
    else if isAmB && hour0 = some 12 then some 0
    else hour0
  optNumPad2 hour ++ ":" ++ optNumPad2 minute

/-- The ordered pattern chain of `extractTimeFromQuery`: first match wins. -/
def matchChain (l : List Char) : Option String :=
  match scanMatch p1At l with
  | some m => some (convertMatch m)
  | none =>
    match scanMatch p2At l with
    | some m => some (convertMatch m)
    | none =>
      match scanMatch p3At l with
      | some m => some (convertMatch m)
      | none => none

/-- Function `extractTimeFromQuery` (QueryDashboard.js lines 48–74).  A falsy query
returns `null`; a string is run through the pattern chain; calling
`.match` on a truthy non-string throws a `TypeError`. -/
def extractTimeFromQuery (query : JSVal) : JSOutcome :=
  if jsTruthy query = false then .ret none
  else
    match query with
    | .str s => .ret (matchChain s.toList)
    | _ => .throwTypeError

/-! Section: The synthetic hourly forecast (`generateHourlyForecast`) -/

/-- One point of the hourly forecast series: `{time, aqi}`. -/
structure ForecastPoint where
  time : String
  aqi : ℚ
deriving DecidableEq

/-- Function `generateHourlyForecast(baseAQI, targetTime)` (QueryDashboard.js
lines 77–97) with the `Math.random()` stream injected as `rand`.  The loop
runs `i = -3 .. 3` (here `i = j - 3` for `j ∈ range 7`); `Math.random()` is
called once per non-anchor iteration, so iteration `j` reads stream position
`j` for `j < 3` and `j - 1` for `j > 3`.  A `targetTime` whose head does not
parse gives `NaN` hours rendered as `"NaN"`; a falsy `targetTime` defaults
the base hour to 14. -/
def generateHourlyForecast (rand : Nat → ℚ) (baseAQI : ℚ)
    (targetTime : Option String) : List ForecastPoint :=
  let baseHour : Option Nat :=
    match targetTime with
    | some s =>
      if s = "" then some 14
      else jsParseInt (String.mk (s.toList.takeWhile (fun c => c ≠ ':')))
    | none => some 14
  (List.range 7).map fun (j : Nat) =>
    let hourStr : String :=
      match baseHour with
      | some b => intPad2 (((b : Int) + ((j : Int) - 3) + 24) % 24)
      | none => "NaN"
    let aqi : ℚ :=
      if j = 3 then baseAQI
      else ((jsRound (baseAQI + (rand (if j < 3 then j else j - 1) * 6 - 3)) : ℤ) : ℚ)
    ⟨hourStr ++ ":00", aqi⟩

/-! Section: The analysis payload and the dashboard view model -/

/-- A per-quantity `{value, status}` entry of `analysis.results`. -/
structure ResultEntry where
  value : Option ℚ
  status : Option String
deriving DecidableEq

/-- The `analysis.results` object: per-pollutant entries plus weather
quantities, each possibly absent. -/
structure Results where
  aqi : Option ResultEntry
  pm25 : Option ResultEntry
  o3 : Option ResultEntry
  no2 : Option ResultEntry
  ch2o : Option ResultEntry
  co : Option ResultEntry
  aod : Option ResultEntry
  temperature : Option ResultEntry
  wind_speed : Option ResultEntry
deriving DecidableEq

/-- The empty object `{}` used by the `|| {}` defaults. -/
def emptyResults : Results := ⟨none, none, none, none, none, none, none, none, none⟩

/-- The empty `{value, status}` object. -/
def emptyEntry : ResultEntry := ⟨none, none⟩

/-- Object `metadata.analysis`: nested results and free-text recommendations. -/
structure Analysis where
  results : Option Results
  recommendations : Option (List String)
deriving DecidableEq

/-- Object `apiData.metadata` (the `context` field is bound but never read by the
mapper, so it is not modelled). -/
structure Metadata where
  analysis : Option Analysis
deriving DecidableEq

/-- The `data` object of a visualization descriptor: coordinates for `map`
visualizations and a single `{timestamp, value}` point for `line` ones. -/
structure VizData where
  lat : Option ℚ
  lon : Option ℚ
  timestamp : Option String
  value : Option ℚ
deriving DecidableEq

/-- A visualization descriptor `{type, title, data}` (the `description` and
`config` fields are never read by the mapper). -/
structure Viz where
  type : Option String
  title : Option String
  data : Option VizData
deriving DecidableEq

/-- Object `apiData.dashboard_details`. -/
structure DashboardDetails where
  aqi : Option ℚ
  location : Option String
  visualizations : Option (List Viz)
deriving DecidableEq

/-- The empty `dashboard_details` object used by `|| {}`. -/
def emptyDashboardDetails : DashboardDetails := ⟨none, none, none⟩

/-- The analysis payload (`apiData`). -/
structure ApiData where
  metadata : Option Metadata
  dashboard_details : Option DashboardDetails
deriving DecidableEq

/-- A `{value, risk}` entry of the view model's pollutant map. -/
structure PollutantVM where
  value : Option ℚ
  risk : Option String
deriving DecidableEq

/-- The `DashboardViewModel` returned by `generateQuerySpecificData`.  The
pollutant map is an insertion-ordered association list; `temperature`,
`windSpeed` and `visualizations` are absent (`none`) on the fallback path. -/
structure DashboardData where
  location : String
  currentAQI : ℤ
  healthRisk : String
  recommendation : String
  recommendations : List String
  timeData : List ForecastPoint
  pollutants : List (String × PollutantVM)
  mapCenter : ℚ × ℚ
  temperature : Option ℚ
  windSpeed : Option ℚ
  visualizations : Option (List Viz)
deriving DecidableEq

/-! Section: The visualization filter -/

/-- The dedup key `` `${viz.type}-${viz.title}` ``: template literals render
`undefined` fields as the string `"undefined"`. -/
def optStr : Option String → String
  | some s => s
  | none => "undefined"

/-- The dedup key of a visualization. -/
def vizKey (v : Viz) : String := optStr v.type ++ "-" ++ optStr v.title

/-- Truthiness-guarded title test
`viz.title && viz.title.toLowerCase().includes('pollutant comparison')`. -/
def titleIsPollutantComparison (v : Viz) : Bool :=
  match v.title with
  | some t => t ≠ "" && hasSubstrS (lowerStr t) "pollutant comparison"
  | none => false

/-- The body of the `filter` callback of `filteredVisualizations`
(QueryDashboard.js lines 189–205), with the mutable `seen` set threaded as a
list of keys. -/
def filterVizAux : List Viz → List String → List Viz
  | [], _ => []
  | v :: rest, seen =>
    if v.type = some "line" then filterVizAux rest seen
    else if titleIsPollutantComparison v then filterVizAux rest seen
    else if vizKey v ∈ seen then filterVizAux rest seen
    else v :: filterVizAux rest (vizKey v :: seen)

/-- The visualization filter: drop `line` charts, drop "Pollutant
Comparison" duplicates, and deduplicate by the `` `${type}-${title}` ``
key, keeping first occurrences. -/
def filterVisualizations (vs : List Viz) : List Viz := filterVizAux vs []

/-! Section: The mapper (`generateQuerySpecificData`) -/

/-- Expression `userQuery && typeof userQuery === 'string' ? userQuery.toLowerCase() : ''`. -/
def queryStringOf (userQuery : JSVal) : String :=
  match userQuery with
  | .str s => lowerStr s
  | _ => ""

/-- The fallback branch of `generateQuerySpecificData` (QueryDashboard.js
lines 223–250): gazetteer location match, asthma keyword check, the fixed
mock time series, the fixed PM2.5/O3 pollutant entries, and the Dublin or
world-center map coordinates. -/
def fallbackData (queryString : String) : DashboardData :=
  let asthma := hasSubstrS queryString "asthma"
  { location :=
      if hasSubstrS queryString "maryland" then "Maryland Park"
      else if hasSubstrS queryString "dublin" then "Dublin"
      else if hasSubstrS queryString "cork" then "Cork"
      else "Current Location"
    currentAQI := 42
    healthRisk := if asthma then "Moderate Risk" else "Low Risk"
    recommendation :=
      if asthma then "Consider indoor activities or wait for better air quality"
      else "Safe for outdoor activities"
    recommendations := ["No API data available"]
    timeData :=
      [⟨"12:00", 38⟩, ⟨"13:00", 42⟩, ⟨"14:00", 45⟩, ⟨"15:00", 48⟩,
       ⟨"16:00", 44⟩, ⟨"17:00", 40⟩, ⟨"18:00", 36⟩]
    pollutants :=
      [("PM2.5", ⟨some (25/2), some (if asthma then "High" else "Moderate")⟩),
       ("O3", ⟨some (179/5), some (if asthma then "Moderate" else "Low")⟩)]
    mapCenter :=
      if hasSubstrS queryString "dublin" then (533498/10000, -62603/10000)
      else (398283/10000, -985795/10000)
    temperature := none
    windSpeed := none
    visualizations := none }

/-- One `if (results.X) pollutants['N'] = {value: ..., risk: ...}` block of
the pollutant construction: the entry is added exactly when the species is
present in the payload. -/
def entryItem (name : String) (x : Option ResultEntry) : List (String × PollutantVM) :=
  match x with
  | some e => [(name, PollutantVM.mk e.value e.status)]
  | none => []

/-- The pollutant map built from `analysis.results` (QueryDashboard.js
lines 160–178): one sequential truthiness check per whitelist species. -/
def pollutantsOf (results : Results) : List (String × PollutantVM) :=
  entryItem "PM2.5" results.pm25 ++ entryItem "O3" results.o3 ++
  entryItem "NO2" results.no2 ++ entryItem "CH2O" results.ch2o ++
  entryItem "CO" results.co ++ entryItem "AOD" results.aod

/-- The API-data branch of `generateQuerySpecificData` (QueryDashboard.js
lines 103–221), taken when `apiData`, `apiData.metadata` and
`apiData.metadata.analysis` are all truthy.  `getHours` injects the
environment-dependent `new Date(timestamp).getHours()`.  An `.error`
result models the `TypeError` thrown by `extractTimeFromQuery` on a truthy
non-string query. -/
def apiBranch (rand : Nat → ℚ) (getHours : String → Nat) (userQuery : JSVal)
    (a : ApiData) (analysis : Analysis) : Except Unit DashboardData :=
  let results := analysis.results.getD emptyResults
  let dashboardDetails := a.dashboard_details.getD emptyDashboardDetails
  let aqiData := (results.aqi).getD emptyEntry
  let currentAQI : ℚ := orNum aqiData.value (orNum dashboardDetails.aqi 42)
  let location := (jsOrStr dashboardDetails.location (some "Current Location")).getD ""
  let mapCenter : ℚ × ℚ :=
    match dashboardDetails.visualizations with
    | some vs =>
      if vs.length > 0 then
        match vs.find? (fun viz => viz.type = some "map" &&
            (match viz.data with
             | some d => numTruthy d.lat && numTruthy d.lon
             | none => false)) with
        | some mapViz =>
          match mapViz.data with
          | some d => ((d.lat).getD 0, (d.lon).getD 0)
          | none => (398283/10000, -985795/10000)
        | none => (398283/10000, -985795/10000)
      else (398283/10000, -985795/10000)
    | none => (398283/10000, -985795/10000)
  match extractTimeFromQuery userQuery with
  | .throwTypeError => .error ()
  | .ret extractedTime =>
    let timeData : List ForecastPoint :=
      match dashboardDetails.visualizations with
      | some vs =>
        if vs.length > 0 then
          match vs.find? (fun viz => viz.type = some "line") with
          | some tsViz =>
            match tsViz.data with
            | some d =>
              if strTruthy d.timestamp && numTruthy d.value then
                generateHourlyForecast rand ((d.value).getD 0)
                  (some (pad2 (getHours ((d.timestamp).getD "")) ++ ":00"))
              else generateHourlyForecast rand currentAQI extractedTime
            | none => generateHourlyForecast rand currentAQI extractedTime
          | none => generateHourlyForecast rand currentAQI extractedTime
        else generateHourlyForecast rand currentAQI extractedTime
      | none => generateHourlyForecast rand currentAQI extractedTime
    .ok
      { location := location
        currentAQI := jsRound currentAQI
        healthRisk := (jsOrStr aqiData.status (some "Unknown")).getD ""
        recommendation :=
          match analysis.recommendations with
          | some (r :: _) => if r = "" then "No specific recommendations" else r
          | _ => "No specific recommendations"
        recommendations := analysis.recommendations.getD []
        timeData := timeData
        pollutants := pollutantsOf results
        mapCenter := mapCenter
        temperature :=
          match results.temperature with
          | some e => e.value
          | none => none
        windSpeed :=
          match results.wind_speed with
          | some e => e.value
          | none => none
        visualizations :=
          some (match dashboardDetails.visualizations with
                | some vs => filterVisualizations vs
                | none => []) }

/-- Function `generateQuerySpecificData` (QueryDashboard.js lines 99–251): take the
API branch when `apiData && apiData.metadata && apiData.metadata.analysis`,
the fallback branch otherwise. -/
def generateQuerySpecificData (rand : Nat → ℚ) (getHours : String → Nat)
    (userQuery : JSVal) (apiData : Option ApiData) : Except Unit DashboardData :=
  match apiData with
  | some a =>
    match a.metadata with
    | some m =>
      match m.analysis with
      | some analysis => apiBranch rand getHours userQuery a analysis
      | none => .ok (fallbackData (queryStringOf userQuery))
    | none => .ok (fallbackData (queryStringOf userQuery))
  | none => .ok (fallbackData (queryStringOf userQuery))

/-- Is the API branch taken?  The guard
`apiData && apiData.metadata && apiData.metadata.analysis` of
QueryDashboard.js line 103. -/
def apiPathTaken (apiData : Option ApiData) : Bool :=
  match apiData with
  | some a =>
    match a.metadata with
    | some m => m.analysis.isSome
    | none => false
  | none => false

/-- The falsy-coalescing chain `a || b || default` on two optional numbers,
written out as the spec-level conditional: a later default is consulted when
the earlier value is absent or `0`. -/
def specCoalesce (x y : Option ℚ) (d : ℚ) : ℚ :=
  if numTruthy x then x.getD 0 else if numTruthy y then y.getD 0 else d

/-- Spec-side drop predicate of the visualization filter, following the
spec's words: drop `line`-typed entries and entries whose title
case-insensitively contains "pollutant comparison". -/
def specDrop (v : Viz) : Bool :=
  v.type = some "line" ||
  (match v.title with
   | some t => hasSubstrS (lowerStr t) "pollutant comparison"
   | none => false)

/-- Spec-side deduplication by the pair `(type, title)`, keeping the first
occurrence (order preserving). -/
def specDedupAux : List Viz → List (Option String × Option String) → List Viz
  | [], _ => []
  | v :: rest, seen =>
    if (v.type, v.title) ∈ seen then specDedupAux rest seen
    else v :: specDedupAux rest ((v.type, v.title) :: seen)

/-- The visualization filter as section 4.4 of the spec describes it. -/
def specVizFilter (vs : List Viz) : List Viz :=
  specDedupAux (vs.filter (fun v => !specDrop v)) []

/-- The pollutant whitelist of the data model. -/
def pollutantWhitelist : List String := ["PM2.5", "O3", "NO2", "CH2O", "CO", "AOD"]

/-! Section: The regional heatmap sampler (`generateHeatmapPoints`) -/

/-- Function `generateHeatmapPoints(centerLat, centerLon, centerValue)` of the
`DynamicVisualization` component (lines 158–196): one anchor sample at the
center with intensity `min(1, value/100)`, then 30 samples at a random polar
offset with value `centerValue` plus a `±10` perturbation.  Each loop
iteration calls `Math.random()` three times (distance, angle, value
variance), so iteration `i` reads stream positions `3i`, `3i+1`, `3i+2`.
Coordinates are real-valued because the polar conversion uses `cos`/`sin`. -/
noncomputable def generateHeatmapPoints (rand : Nat → ℝ)
    (centerLat centerLon centerValue : ℝ) : List (ℝ × ℝ × ℝ) :=
  (centerLat, centerLon, min 1 (centerValue / 100)) ::
  (List.range 30).map fun (i : Nat) =>
    let distance := rand (3 * i) * 0.02
    let angle := rand (3 * i + 1) * (2 * Real.pi)
    let latOffset := distance * Real.cos angle
    let lonOffset := distance * Real.sin angle
    let valueVariance := rand (3 * i + 2) * 20 - 10
    let pointValue := max 0 (centerValue + valueVariance)
    (centerLat + latOffset, centerLon + lonOffset, min 1 (pointValue / 100))

/-! Section: Concrete inputs used by witnesses and counterexamples -/

/-- Default point for positional access. -/
def noPoint : ForecastPoint := ⟨"", 0⟩

/-- The constant-zero random stream (every `Math.random()` call returns 0). -/
def rand0 : Nat → ℚ := fun _ => 0

/-- The constant-one-half random stream. -/
def randHalf : Nat → ℚ := fun _ => 1/2

/-- A fixed timestamp-to-hour environment. -/
def hours0 : String → Nat := fun _ => 0

/-- The constant-zero real random stream, for the heatmap sampler. -/
def rand0R : Nat → ℝ := fun _ => 0

/-- Object `analysis.results` carrying only the legitimate AQI reading `0`. -/
def resultsZero : Results := { emptyResults with aqi := some ⟨some 0, none⟩ }

/-- An analysis carrying `resultsZero` and no recommendations. -/
def anZero : Analysis := ⟨some resultsZero, none⟩

/-- A payload whose `results.aqi.value` is the legitimate AQI reading `0`
and whose other fields are all absent. -/
def payloadAqiZero : ApiData := ⟨some ⟨some anZero⟩, none⟩

/-- Object `analysis.results` carrying only an AQI reading of `55.7`. -/
def results557 : Results := { emptyResults with aqi := some ⟨some (557/10), none⟩ }

/-- An analysis carrying `results557` and no recommendations. -/
def an557 : Analysis := ⟨some results557, none⟩

/-- A payload whose `results.aqi.value` is `55.7` and whose other fields are
all absent. -/
def payloadAqi557 : ApiData := ⟨some ⟨some an557⟩, none⟩

/-- An analysis whose nested results object is present but empty. -/
def anEmpty : Analysis := ⟨some emptyResults, none⟩

/-- A payload with nested analysis present but both `results.aqi` and
`dashboard_details.aqi` missing. -/
def payloadAqiMissing : ApiData := ⟨some ⟨some anEmpty⟩, none⟩

/-- The view model actually produced for `payloadAqi557` with the
constant-zero random stream and a `null` query. -/
def dAqi557 : DashboardData :=
  { location := "Current Location"
    currentAQI := jsRound (557/10)
    healthRisk := "Unknown"
    recommendation := "No specific recommendations"
    recommendations := []
    timeData := generateHourlyForecast rand0 (557/10) none
    pollutants := []
    mapCenter := (398283/10000, -985795/10000)
    temperature := none
    windSpeed := none
    visualizations := some [] }

/-- The view model actually produced for `payloadAqiMissing` with the
constant-zero random stream and a `null` query. -/
def dMissing : DashboardData :=
  { location := "Current Location"
    currentAQI := jsRound 42
    healthRisk := "Unknown"
    recommendation := "No specific recommendations"
    recommendations := []
    timeData := generateHourlyForecast rand0 42 none
    pollutants := []
    mapCenter := (398283/10000, -985795/10000)
    temperature := none
    windSpeed := none
    visualizations := some [] }

/-- A `line`-typed visualization for the filter example. -/
def exLine : Viz := ⟨some "line", some "AQI over time", none⟩

/-- A `bar`-typed visualization titled "X". -/
def exBarX : Viz := ⟨some "bar", some "X", none⟩

/-- A `map`-typed visualization titled "Pollutant Comparison". -/
def exMapPC : Viz := ⟨some "map", some "Pollutant Comparison", none⟩

/-- The dedup key of a `(type, title)` pair, as the template literal
renders it. -/
def pairKeyStr (p : Option String × Option String) : String :=
  optStr p.1 ++ "-" ++ optStr p.2

/-- Constraint on a dedup pair: a data-model type and a present title. -/
def goodPair (p : Option String × Option String) : Prop :=
  (p.1 = some "line" ∨ p.1 = some "bar" ∨ p.1 = some "map") ∧ ∃ x, p.2 = some x

/-! Section: Helper lemmas -/

/-- Printing a cast natural number agrees with `toString` of the
number, so integer and natural padding agree on naturals. -/
theorem intPad2_natCast (n : Nat) : intPad2 (n : ℤ) = pad2 n := rfl

/-- Rounding `base - 3` equals rounding `base + v` for some `v` strictly
inside `(-3, 3)`: nudging the offset up by half the distance to the next
integer boundary does not change the floor. -/
theorem jsRound_sub_three (base : ℚ) :
    ∃ v : ℚ, -3 < v ∧ v < 3 ∧ jsRound (base - 3) = jsRound (base + v) := by
  set x : ℚ := base + 1/2 with hx
  set n : ℤ := ⌊x⌋ with hn
  have h1 : (n : ℚ) ≤ x := Int.floor_le x
  have h2 : x < n + 1 := Int.lt_floor_add_one x
  set δ : ℚ := (n : ℚ) + 1 - x with hδ
  have hδ0 : 0 < δ := by simp only [hδ]; linarith
  have hδ1 : δ ≤ 1 := by simp only [hδ]; linarith
  refine ⟨-3 + δ/2, by linarith, by linarith, ?_⟩
  have hL : jsRound (base - 3) = n - 3 := by
    simp only [jsRound]
    have : base - 3 + 1/2 = x - 3 := by simp only [hx]; ring
    rw [this]
    rw [show x - 3 = x - (3 : ℤ) by push_cast; ring]
    rw [Int.floor_sub_int, ← hn]
  have hR : jsRound (base + (-3 + δ/2)) = n - 3 := by
    simp only [jsRound]
    have harg : base + (-3 + δ/2) + 1/2 = (n : ℚ) - 2 - δ/2 := by
      simp only [hδ, hx]; ring
    rw [harg]
    rw [Int.floor_eq_iff]
    constructor
    · push_cast; linarith
    · push_cast; linarith
  rw [hL, hR]

/-- A perturbed point's rounded value is the rounding of the base plus a
value strictly inside `(-3, 3)`, for any `Math.random()` output in `[0, 1)`. -/
theorem perturb_exists (base r : ℚ) (h0 : 0 ≤ r) (h1 : r < 1) :
    ∃ v : ℚ, -3 < v ∧ v < 3 ∧ jsRound (base + (r * 6 - 3)) = jsRound (base + v) := by
  rcases eq_or_lt_of_le h0 with h | h
  · have harg : base + (r * 6 - 3) = base - 3 := by rw [← h]; ring
    rw [harg]
    exact jsRound_sub_three base
  · exact ⟨r * 6 - 3, by linarith, by linarith, rfl⟩

/-- Positional access into a mapped range. -/
theorem getD_map_range {α : Type} (f : Nat → α) (d : α) (n j : Nat) (h : j < n) :
    ((List.range n).map f).getD j d = f j := by
  simp [List.getD_eq_getElem?_getD, List.getElem?_map, List.getElem?_range h]

/-- A successful `tryAlts` comes from one of the alternatives. -/
theorem tryAlts_eq_some (alts : List (List Char × List Char))
    (k : List Char → List Char → Option MatchResult) (m : MatchResult)
    (h : tryAlts alts k = some m) : ∃ p ∈ alts, k p.1 p.2 = some m := by
  induction alts with
  | nil => simp [tryAlts] at h
  | cons hd tl ih =>
    obtain ⟨d, rest⟩ := hd
    simp only [tryAlts] at h
    cases hk : k d rest with
    | some r =>
      rw [hk] at h
      refine ⟨(d, rest), List.mem_cons_self _ _, ?_⟩
      simpa [hk] using h
    | none =>
      rw [hk] at h
      obtain ⟨p, hp, hkp⟩ := ih h
      exact ⟨p, List.mem_cons_of_mem _ hp, hkp⟩

/-- Every alternative produced by `digitAlts` captures a nonempty list of
digit characters. -/
theorem digitAlts_digits (l : List Char) (d rest : List Char)
    (h : (d, rest) ∈ digitAlts l) : d ≠ [] ∧ ∀ c ∈ d, isDigitChar c = true := by
  unfold digitAlts at h
  rcases l with _ | ⟨a, _ | ⟨b, tail⟩⟩
  · simp at h
  · by_cases ha : isDigitChar a
    · simp [ha] at h
      obtain ⟨h1, _⟩ := h
      subst h1
      simp [ha]
    · simp [ha] at h
  · by_cases ha : isDigitChar a
    · by_cases hb : isDigitChar b
      · simp [ha, hb] at h
        rcases h with ⟨h1, _⟩ | ⟨h1, _⟩ <;> subst h1 <;> simp_all
      · simp [ha, hb] at h
        obtain ⟨h1, _⟩ := h
        subst h1
        simp [ha]
    · simp [ha] at h

/-- A successful scan comes from the pattern succeeding at some suffix. -/
theorem scanMatch_eq_some (p : List Char → Option MatchResult) (l : List Char)
    (m : MatchResult) (h : scanMatch p l = some m) : ∃ t : List Char, p t = some m := by
  induction l with
  | nil => exact ⟨[], h⟩
  | cons a tl ih =>
    simp only [scanMatch] at h
    cases hp : p (a :: tl) with
    | some r =>
      rw [hp] at h
      simp only at h
      exact ⟨a :: tl, by rw [hp, h]⟩
    | none => rw [hp] at h; exact ih h

/-- A string's character list is empty exactly when the string is empty. -/
theorem toList_eq_nil_iff (s : String) : s.toList = [] ↔ s = "" := by
  cases s with
  | mk data => cases data <;> simp [String.toList, String.ext_iff]

/-- Digit characters are unchanged by `Char.toLower`. -/
theorem char_toLower_of_digit (c : Char) (h : isDigitChar c = true) : c.toLower = c := by
  simp only [isDigitChar, Bool.and_eq_true, decide_eq_true_eq] at h
  obtain ⟨h1, h2⟩ := h
  unfold Char.toLower
  rw [if_neg]
  rintro ⟨ha, hb⟩
  have h9 : c.toNat ≤ 57 := by
    simp only [Char.le_def] at h2
    exact h2
  omega

/-- Parsing a nonempty all-digit string with `parseInt` reads the whole string. -/
theorem jsParseInt_digits (s : String) (hne : s ≠ "")
    (hd : ∀ c ∈ s.toList, isDigitChar c = true) :
    jsParseInt s = some (digitsToNat s.toList) := by
  unfold jsParseInt
  rw [List.takeWhile_eq_self_iff.2 hd]
  rw [if_neg]
  simp only [List.isEmpty_iff]
  exact fun hnil => hne ((toList_eq_nil_iff s).1 hnil)

/-- Lowercasing an all-digit string changes nothing. -/
theorem lowerStr_digits (t : String) (hd : ∀ c ∈ t.toList, isDigitChar c = true) :
    lowerStr t = t := by
  unfold lowerStr
  have hmap : t.toList.map Char.toLower = t.toList := by
    have := fun c hc => char_toLower_of_digit c (hd c hc)
    calc t.toList.map Char.toLower = t.toList.map id :=
          List.map_congr_left (fun c hc => this c hc)
    _ = t.toList := List.map_id _
  rw [hmap]
  cases t with
  | mk data => rfl

/-- Shape of a successful match of the 24-hour pattern `/(\d{1,2}):(\d{2})/`:
nonempty digit hour capture, a two-digit minute capture, no third group. -/
theorem p3At_shape (l : List Char) (m : MatchResult) (h : p3At l = some m) :
    (m.g1 ≠ "" ∧ ∀ c ∈ m.g1.toList, isDigitChar c = true) ∧
    (∃ t : String, m.g2 = some t ∧ t ≠ "" ∧ ∀ c ∈ t.toList, isDigitChar c = true) ∧
    m.g3 = none := by
  obtain ⟨⟨d, rest⟩, hmem, hk⟩ := tryAlts_eq_some _ _ _ h
  obtain ⟨hd_ne, hd_dig⟩ := digitAlts_digits _ _ _ hmem
  simp only at hk
  split at hk
  · rename_i c e tail
    split_ifs at hk with hde
    · simp only [Bool.and_eq_true] at hde
      injection hk with hk
      subst hk
      refine ⟨⟨?_, ?_⟩, ⟨String.mk [c, e], rfl, by simp [String.ext_iff], ?_⟩, rfl⟩
      · simpa [String.ext_iff] using hd_ne
      · simpa [String.toList] using hd_dig
      · intro x hx
        simp only [String.toList, List.mem_cons, List.not_mem_nil, or_false] at hx
        rcases hx with rfl | rfl
        · exact hde.1
        · exact hde.2
  · cases hk

/-! Section: Claim theorems -/

/-- C1: for every numeric `baseValue`, every random stream with values in
`[0, 1)`, and every `targetTime` string whose head parses to an hour
`H < 24`, `generateHourlyForecast` returns exactly 7 points at hour offsets
`-3..+3` around `H` wrapping mod 24; the offset-0 point has time equal to
the target hour and aqi equal to `baseValue` exactly, and every other
point's aqi is `baseValue` plus a value in `(-3, +3)` rounded to the
nearest integer (`Math.round`). -/
theorem hourlyForecast_points (rand : Nat → ℚ) (base : ℚ) (s : String) (H : Nat)
    (hrand : ∀ k, 0 ≤ rand k ∧ rand k < 1) (hs : s ≠ "")
    (hparse : jsParseInt (String.mk (s.toList.takeWhile (fun c => c ≠ ':'))) = some H)
    (hH : H < 24) :
    (generateHourlyForecast rand base (some s)).length = 7 ∧
    (∀ j : Nat, j < 7 →
      ((generateHourlyForecast rand base (some s)).getD j noPoint).time =
        intPad2 (((H : ℤ) + ((j : ℤ) - 3) + 24) % 24) ++ ":00") ∧
    ((generateHourlyForecast rand base (some s)).getD 3 noPoint).time = pad2 H ++ ":00" ∧
    ((generateHourlyForecast rand base (some s)).getD 3 noPoint).aqi = base ∧
    (∀ j : Nat, j < 7 → j ≠ 3 →
      ∃ v : ℚ, -3 < v ∧ v < 3 ∧
        ((generateHourlyForecast rand base (some s)).getD j noPoint).aqi =
          ((jsRound (base + v) : ℤ) : ℚ)) := by
  have hF : generateHourlyForecast rand base (some s) =
      (List.range 7).map (fun j =>
        ⟨intPad2 (((H : ℤ) + ((j : ℤ) - 3) + 24) % 24) ++ ":00",
         if j = 3 then base
         else ((jsRound (base + (rand (if j < 3 then j else j - 1) * 6 - 3)) : ℤ) : ℚ)⟩) := by
    simp only [generateHourlyForecast, if_neg hs, hparse]
  rw [hF]
  refine ⟨by simp, ?_, ?_, ?_, ?_⟩
  · intro j hj
    rw [getD_map_range _ _ _ _ hj]
  · rw [getD_map_range _ _ _ 3 (by norm_num)]
    have h24 : ((H : ℤ) + (((3 : Nat) : ℤ) - 3) + 24) % 24 = (H : ℤ) := by
      push_cast; omega
    show intPad2 (((H : ℤ) + (((3 : Nat) : ℤ) - 3) + 24) % 24) ++ ":00" = pad2 H ++ ":00"
    rw [h24, intPad2_natCast]
  · rw [getD_map_range _ _ _ 3 (by norm_num)]
    simp
  · intro j hj hne
    rw [getD_map_range _ _ _ _ hj]
    obtain ⟨v, h1, h2, h3⟩ :=
      perturb_exists base (rand (if j < 3 then j else j - 1)) (hrand _).1 (hrand _).2
    refine ⟨v, h1, h2, ?_⟩
    show (if j = 3 then base
      else ((jsRound (base + (rand (if j < 3 then j else j - 1) * 6 - 3)) : ℤ) : ℚ)) = _
    rw [if_neg hne, h3]

/-- Witness for C1 at `baseValue = 50`, `targetTime = "23:00"` and the
constant-one-half random stream; the hour sequence wraps around midnight. -/
theorem hourlyForecast_points_witness :
    (∀ k, 0 ≤ randHalf k ∧ randHalf k < 1) ∧ ("23:00" : String) ≠ "" ∧
    jsParseInt (String.mk (("23:00" : String).toList.takeWhile (fun c => c ≠ ':'))) = some 23 ∧
    23 < 24 ∧
    ((generateHourlyForecast randHalf 50 (some "23:00")).length = 7 ∧
     (∀ j : Nat, j < 7 →
       ((generateHourlyForecast randHalf 50 (some "23:00")).getD j noPoint).time =
         intPad2 ((((23 : Nat) : ℤ) + ((j : ℤ) - 3) + 24) % 24) ++ ":00") ∧
     ((generateHourlyForecast randHalf 50 (some "23:00")).getD 3 noPoint).time =
       pad2 23 ++ ":00" ∧
     ((generateHourlyForecast randHalf 50 (some "23:00")).getD 3 noPoint).aqi = 50 ∧
     (∀ j : Nat, j < 7 → j ≠ 3 → ∃ v : ℚ, -3 < v ∧ v < 3 ∧
       ((generateHourlyForecast randHalf 50 (some "23:00")).getD j noPoint).aqi =
         ((jsRound (50 + v) : ℤ) : ℚ))) :=
  ⟨fun _ => ⟨by norm_num [randHalf], by norm_num [randHalf]⟩, by decide, by decide, by decide,
   hourlyForecast_points randHalf 50 "23:00" 23
     (fun _ => ⟨by norm_num [randHalf], by norm_num [randHalf]⟩)
     (by decide) (by decide) (by decide)⟩

/-- C2: the conversion behaviour of the time parser on the spec's test
inputs.  `"2:00pm"`, `"14:00"` and `"no time here"` behave as documented,
but `"2pm"` yields `"14:NaN"`, not `"14:00"`: for the second pattern
`match[2]` is the meridiem capture, so `parseInt(match[2])` is `NaN`. -/
theorem extractTime_conversion_cases :
    extractTimeFromQuery (.str "2:00pm") = .ret (some "14:00") ∧
    extractTimeFromQuery (.str "2pm") = .ret (some "14:NaN") ∧
    extractTimeFromQuery (.str "14:00") = .ret (some "14:00") ∧
    extractTimeFromQuery (.str "no time here") = .ret none := by decide

/-- C7 counterexample: a truthy non-string input (the number 5) makes
`query.match` throw a `TypeError` instead of returning the no-match
result, because only falsy inputs are guarded by `if (!query)`. -/
theorem extractTime_nonstring_throws :
    extractTimeFromQuery (.num 5) = .throwTypeError := by decide

/-- C7 (amended): every falsy input returns the no-match result `null`
without an exception, and every string on which none of the three time
patterns matches returns `null`; truthy non-string inputs, however, throw. -/
theorem extractTime_no_match (q : JSVal) :
    (jsTruthy q = false → extractTimeFromQuery q = .ret none) ∧
    (∀ s : String, q = .str s →
      scanMatch p1At s.toList = none → scanMatch p2At s.toList = none →
      scanMatch p3At s.toList = none → extractTimeFromQuery q = .ret none) := by
  constructor
  · intro h
    simp [extractTimeFromQuery, h]
  · rintro s rfl h1 h2 h3
    by_cases hs : s = ""
    · subst hs
      rfl
    · have htr : jsTruthy (.str s) = true := by simp [jsTruthy, hs]
      unfold extractTimeFromQuery
      rw [htr]
      simp only [Bool.true_eq_false, if_false, matchChain, h1, h2, h3]

/-- Witness for C7 (amended): `null` and a patternless string both give the
no-match result. -/
theorem extractTime_no_match_witness :
    extractTimeFromQuery .nullV = .ret none ∧
    extractTimeFromQuery (.str "no time here at all") = .ret none :=
  ⟨(extractTime_no_match .nullV).1 (by decide),
   (extractTime_no_match (.str "no time here at all")).2 "no time here at all" rfl
     (by decide) (by decide) (by decide)⟩

/-- C10: when the first two patterns fail and the 24-hour pattern
`/(\d{1,2}):(\d{2})/` matches, the captured digits are rendered zero-padded
verbatim with no range validation on the hour. -/
theorem time_no_range_validation (s : String) (m : MatchResult)
    (h1 : scanMatch p1At s.toList = none) (h2 : scanMatch p2At s.toList = none)
    (h3 : scanMatch p3At s.toList = some m) :
    extractTimeFromQuery (.str s) =
      .ret (some (pad2 (digitsToNat m.g1.toList) ++ ":" ++
                  pad2 (digitsToNat ((m.g2.getD "").toList)))) := by
  obtain ⟨t, ht⟩ := scanMatch_eq_some _ _ _ h3
  obtain ⟨⟨hg1ne, hg1d⟩, ⟨t2, hg2, ht2ne, ht2d⟩, hg3⟩ := p3At_shape _ _ ht
  have hsne : s ≠ "" := by
    intro he
    subst he
    rw [show scanMatch p3At ("" : String).toList = none from rfl] at h3
    cases h3
  have hpm : lowerStr t2 ≠ "pm" := by
    rw [lowerStr_digits t2 ht2d]
    intro he
    subst he
    exact absurd (ht2d 'p' (by decide)) (by decide)
  have ham : lowerStr t2 ≠ "am" := by
    rw [lowerStr_digits t2 ht2d]
    intro he
    subst he
    exact absurd (ht2d 'a' (by decide)) (by decide)
  have htr : jsTruthy (.str s) = true := by simp [jsTruthy, hsne]
  unfold extractTimeFromQuery
  rw [htr]
  simp only [Bool.true_eq_false, if_false]
  simp only [matchChain, h1, h2, h3]
  unfold convertMatch
  rw [jsParseInt_digits m.g1 hg1ne hg1d, hg2, hg3]
  simp only [if_neg ht2ne, jsParseInt_digits t2 ht2ne ht2d, jsOrStr, hpm, ham,
    decide_eq_true_eq, decide_False, Bool.false_and, if_false, optNumPad2]
  simp [optNumPad2]

/-- Witness for C10 at the input `"27:45"`: the returned string carries the
out-of-range hour 27 verbatim. -/
theorem time_no_range_validation_witness :
    extractTimeFromQuery (.str "27:45") =
      .ret (some (pad2 (digitsToNat ("27" : String).toList) ++ ":" ++
                  pad2 (digitsToNat ((some ("45" : String)).getD "").toList))) ∧
    23 < digitsToNat ("27" : String).toList ∧
    extractTimeFromQuery (.str "27:45") = .ret (some "27:45") := by
  refine ⟨?_, by decide, by decide⟩
  exact time_no_range_validation "27:45" ⟨"27", some "45", none⟩
    (by decide) (by decide) (by decide)

/-- C9: with the `Math.random()` stream and the timestamp-hour environment
made explicit, the mapper is a pure function: two invocations on the same
`(AnalysisResult, Query)` pair with the same random stream produce equal
`DashboardViewModel` values. -/
theorem mapper_deterministic (r1 r2 : Nat → ℚ) (g1 g2 : String → Nat)
    (q1 q2 : JSVal) (a1 a2 : Option ApiData)
    (hr : r1 = r2) (hg : g1 = g2) (hq : q1 = q2) (ha : a1 = a2) :
    generateQuerySpecificData r1 g1 q1 a1 = generateQuerySpecificData r2 g2 q2 a2 := by
  rw [hr, hg, hq, ha]

/-- Witness for C9 at a concrete input. -/
theorem mapper_deterministic_witness :
    generateQuerySpecificData rand0 hours0 .nullV none =
      generateQuerySpecificData rand0 hours0 .nullV none :=
  mapper_deterministic rand0 rand0 hours0 hours0 .nullV .nullV none none rfl rfl rfl rfl

/-- The mapper reduces to the API branch when the payload guard passes. -/
theorem gQSD_api (rand : Nat → ℚ) (gh : String → Nat) (q : JSVal)
    (api : Option ApiData) (a : ApiData) (m : Metadata) (an : Analysis)
    (h1 : api = some a) (h2 : a.metadata = some m) (h3 : m.analysis = some an) :
    generateQuerySpecificData rand gh q api = apiBranch rand gh q a an := by
  subst h1
  simp only [generateQuerySpecificData, h2, h3]

/-- The mapper reduces to the fallback branch when the payload guard fails. -/
theorem gQSD_fallback (rand : Nat → ℚ) (gh : String → Nat) (q : JSVal)
    (api : Option ApiData) (h : apiPathTaken api = false) :
    generateQuerySpecificData rand gh q api = .ok (fallbackData (queryStringOf q)) := by
  cases api with
  | none => rfl
  | some a =>
    cases hm : a.metadata with
    | none => simp only [generateQuerySpecificData, hm]
    | some m =>
      cases han : m.analysis with
      | none => simp only [generateQuerySpecificData, hm, han]
      | some an =>
        exfalso
        simp [apiPathTaken, hm, han] at h

/-- The `currentAQI` and `pollutants` fields of a successful API-branch
result. -/
theorem apiBranch_fields (rand : Nat → ℚ) (gh : String → Nat) (q : JSVal)
    (a : ApiData) (an : Analysis) (d : DashboardData)
    (h : apiBranch rand gh q a an = .ok d) :
    d.currentAQI = jsRound (orNum ((an.results.getD emptyResults).aqi.getD emptyEntry).value
      (orNum (a.dashboard_details.getD emptyDashboardDetails).aqi 42)) ∧
    d.pollutants = pollutantsOf (an.results.getD emptyResults) := by
  cases het : extractTimeFromQuery q with
  | throwTypeError =>
    simp only [apiBranch, het] at h
    cases h
  | ret et =>
    simp only [apiBranch, het, Except.ok.injEq] at h
    subst h
    exact ⟨rfl, rfl⟩

/-- Membership in an `entryItem` block forces the block's key and the
species' presence. -/
theorem mem_entryItem {k : String} {vm : PollutantVM} {name : String}
    {x : Option ResultEntry} (h : (k, vm) ∈ entryItem name x) :
    k = name ∧ x ≠ none := by
  cases x with
  | none => simp [entryItem] at h
  | some e =>
    simp only [entryItem, List.mem_singleton, Prod.mk.injEq] at h
    exact ⟨h.1, by simp⟩

/-- Membership in the pollutant map decomposes into the six whitelist
blocks. -/
theorem mem_pollutantsOf {r : Results} {k : String} {vm : PollutantVM}
    (h : (k, vm) ∈ pollutantsOf r) :
    (k = "PM2.5" ∧ r.pm25 ≠ none) ∨ (k = "O3" ∧ r.o3 ≠ none) ∨
    (k = "NO2" ∧ r.no2 ≠ none) ∨ (k = "CH2O" ∧ r.ch2o ≠ none) ∨
    (k = "CO" ∧ r.co ≠ none) ∨ (k = "AOD" ∧ r.aod ≠ none) := by
  simp only [pollutantsOf, List.mem_append] at h
  rcases h with ((((h | h) | h) | h) | h) | h
  · exact Or.inl (mem_entryItem h)
  · exact Or.inr (Or.inl (mem_entryItem h))
  · exact Or.inr (Or.inr (Or.inl (mem_entryItem h)))
  · exact Or.inr (Or.inr (Or.inr (Or.inl (mem_entryItem h))))
  · exact Or.inr (Or.inr (Or.inr (Or.inr (Or.inl (mem_entryItem h)))))
  · exact Or.inr (Or.inr (Or.inr (Or.inr (Or.inr (mem_entryItem h)))))

/-- The code's truthy-coalescing chain written as the spec-level
conditional. -/
theorem orNum_eq_specCoalesce (x y : Option ℚ) (d : ℚ) :
    orNum x (orNum y d) = specCoalesce x y d := by
  cases x <;> cases y <;>
    simp only [orNum, specCoalesce, numTruthy, Option.getD] <;>
    split_ifs <;> simp_all

/-- The view model computed for `payloadAqi557`. -/
theorem dAqi557_ok :
    generateQuerySpecificData rand0 hours0 .nullV (some payloadAqi557) = .ok dAqi557 := by
  have hv : orNum (some (557/10 : ℚ)) (orNum none 42) = 557/10 := by
    norm_num [orNum]
  simp only [payloadAqi557, an557, results557, generateQuerySpecificData, apiBranch,
    extractTimeFromQuery, jsTruthy, emptyDashboardDetails, dAqi557, Option.getD,
    Except.ok.injEq, DashboardData.mk.injEq]
  norm_num [orNum, jsOrStr, pollutantsOf, entryItem, emptyResults,
    filterVisualizations, filterVizAux]

/-- The view model computed for `payloadAqiMissing`. -/
theorem dMissing_ok :
    generateQuerySpecificData rand0 hours0 .nullV (some payloadAqiMissing) = .ok dMissing := rfl

/-- C3 counterexample: with `results.aqi.value = 0` (a legitimate reading)
and `dashboard_details.aqi` absent, the code produces `currentAQI = 42`,
not `round(0) = 0`: the chain uses `||`, not `??`, so the value `0` falls
through to the default. -/
theorem currentAQI_zero_counterexample :
    (generateQuerySpecificData rand0 hours0 .nullV (some payloadAqiZero)).map
      (fun d => d.currentAQI) = .ok 42 ∧
    payloadAqiZero.metadata = some ⟨some anZero⟩ ∧
    anZero.results = some resultsZero ∧
    resultsZero.aqi = some ⟨some 0, none⟩ ∧
    jsRound 0 = 0 ∧ (42 : ℤ) ≠ 0 := by
  refine ⟨?_, rfl, rfl, rfl, by norm_num [jsRound], by decide⟩
  simp only [payloadAqiZero, anZero, resultsZero, generateQuerySpecificData, apiBranch,
    extractTimeFromQuery, jsTruthy, Except.map]
  norm_num [orNum, jsRound, emptyDashboardDetails]

/-- C3 (amended): on the API path, `currentAQI` is the rounding of the
truthy-coalescing chain `results.aqi.value || dashboard_details.aqi || 42`:
a later default is consulted when the earlier value is absent or `0`.  The
spec's two numeric instances hold: a present `55.7` rounds to 56 regardless
of the dashboard value, and with both sources missing the default is 42. -/
theorem currentAQI_coalesce (rand : Nat → ℚ) (gh : String → Nat) (q : JSVal)
    (api : Option ApiData) (a : ApiData) (m : Metadata) (an : Analysis)
    (d : DashboardData)
    (h1 : api = some a) (h2 : a.metadata = some m) (h3 : m.analysis = some an)
    (hok : generateQuerySpecificData rand gh q api = .ok d) :
    d.currentAQI = jsRound (specCoalesce
      ((an.results.getD emptyResults).aqi.getD emptyEntry).value
      ((a.dashboard_details.getD emptyDashboardDetails).aqi) 42) ∧
    (∀ y : Option ℚ, jsRound (specCoalesce (some (557/10)) y 42) = 56) ∧
    jsRound (specCoalesce none none 42) = 42 := by
  rw [gQSD_api rand gh q api a m an h1 h2 h3] at hok
  obtain ⟨hc, -⟩ := apiBranch_fields rand gh q a an d hok
  refine ⟨by rw [hc, orNum_eq_specCoalesce], ?_,
    by norm_num [specCoalesce, numTruthy, jsRound]⟩
  intro y
  norm_num [specCoalesce, numTruthy, jsRound]

/-- Witness for C3 (amended) at `payloadAqi557` (55.7 rounds to 56) and at
`payloadAqiMissing` (the documented default 42). -/
theorem currentAQI_coalesce_witness :
    payloadAqi557.metadata = some ⟨some an557⟩ ∧
    (Metadata.mk (some an557)).analysis = some an557 ∧
    generateQuerySpecificData rand0 hours0 .nullV (some payloadAqi557) = .ok dAqi557 ∧
    dAqi557.currentAQI = 56 ∧
    (generateQuerySpecificData rand0 hours0 .nullV (some payloadAqiMissing)).map
      (fun d => d.currentAQI) = .ok 42 := by
  refine ⟨rfl, rfl, dAqi557_ok, ?_, ?_⟩
  · have h := currentAQI_coalesce rand0 hours0 .nullV (some payloadAqi557)
      payloadAqi557 ⟨some an557⟩ an557 dAqi557 rfl rfl rfl dAqi557_ok
    rw [h.1]
    norm_num [an557, results557, payloadAqi557, specCoalesce, numTruthy, jsRound,
      emptyDashboardDetails, emptyResults, emptyEntry]
  · rw [dMissing_ok]
    show Except.ok dMissing.currentAQI = Except.ok 42
    norm_num [dMissing, jsRound]

/-- C4 counterexample: the fallback `timeData` is the hard-coded mock
series centred on 15:00, not a series synthesized by
`hourlyForecast(42, "14:00")` — the latter's offset-0 point always has
time `"14:00"`, the fallback's has `"15:00"`. -/
theorem fallback_timeData_counterexample :
    (generateQuerySpecificData rand0 hours0 (.str "jogging in dublin at 2pm") none).map
      (fun d => (d.timeData.getD 3 noPoint).time) = .ok "15:00" ∧
    ((generateHourlyForecast rand0 42 (some "14:00")).getD 3 noPoint).time = "14:00" ∧
    ("15:00" : String) ≠ "14:00" := by
  refine ⟨rfl, ?_, by decide⟩
  rfl

/-- C4 (amended): when the payload guard fails, the mapper returns the full
fallback view model: the gazetteer location match, the asthma keyword risk
tier, the fixed mock time series 12:00→38 … 18:00→36, and the fixed
PM2.5/O3 pollutant entries. -/
theorem fallback_viewmodel (rand : Nat → ℚ) (gh : String → Nat) (q : JSVal)
    (api : Option ApiData) (h : apiPathTaken api = false) :
    generateQuerySpecificData rand gh q api = .ok (fallbackData (queryStringOf q)) ∧
    (fallbackData (queryStringOf q)).location =
      (if hasSubstrS (queryStringOf q) "maryland" then "Maryland Park"
       else if hasSubstrS (queryStringOf q) "dublin" then "Dublin"
       else if hasSubstrS (queryStringOf q) "cork" then "Cork"
       else "Current Location") ∧
    (fallbackData (queryStringOf q)).healthRisk =
      (if hasSubstrS (queryStringOf q) "asthma" then "Moderate Risk" else "Low Risk") ∧
    (fallbackData (queryStringOf q)).timeData =
      [⟨"12:00", 38⟩, ⟨"13:00", 42⟩, ⟨"14:00", 45⟩, ⟨"15:00", 48⟩,
       ⟨"16:00", 44⟩, ⟨"17:00", 40⟩, ⟨"18:00", 36⟩] ∧
    (fallbackData (queryStringOf q)).pollutants.map Prod.fst = ["PM2.5", "O3"] :=
  ⟨gQSD_fallback rand gh q api h, rfl, rfl, rfl, rfl⟩

/-- Witness for C4 (amended) at the spec's example query: the location is
"Dublin" and the health risk reflects the asthma keyword. -/
theorem fallback_viewmodel_witness :
    apiPathTaken none = false ∧
    generateQuerySpecificData rand0 hours0
      (.str "My son has asthma, jogging in Dublin") none =
      .ok (fallbackData (queryStringOf (.str "My son has asthma, jogging in Dublin"))) ∧
    (fallbackData (queryStringOf (.str "My son has asthma, jogging in Dublin"))).location =
      "Dublin" ∧
    (fallbackData (queryStringOf (.str "My son has asthma, jogging in Dublin"))).healthRisk =
      "Moderate Risk" :=
  ⟨by decide,
   (fallback_viewmodel rand0 hours0 (.str "My son has asthma, jogging in Dublin") none
     (by decide)).1,
   by decide, by decide⟩

/-- C6 counterexample: on the fallback path (payload absent, so every
species is absent from the payload) the pollutant map nevertheless contains
two defaulted entries for PM2.5 and O3, contradicting "absent species are
omitted, never defaulted". -/
theorem pollutants_default_counterexample :
    (generateQuerySpecificData rand0 hours0 (.str "morning jog") none).map
      (fun d => d.pollutants) =
      .ok [("PM2.5", ⟨some (25/2), some "Moderate"⟩), ("O3", ⟨some (179/5), some "Low"⟩)] ∧
    [("PM2.5", (⟨some (25/2), some "Moderate"⟩ : PollutantVM)),
     ("O3", ⟨some (179/5), some "Low"⟩)] ≠ ([] : List (String × PollutantVM)) := by
  constructor
  · simp only [generateQuerySpecificData, fallbackData, queryStringOf, Except.map]
    norm_num
    decide
  · simp

/-- C6 (amended): the pollutant map's keys always lie in the whitelist
{PM2.5, O3, NO2, CH2O, CO, AOD}; on the API path a species absent from
`analysis.results` is omitted from the map.  (On the fallback path the map
is the fixed PM2.5/O3 mock, shown defaulted by the counterexample.) -/
theorem pollutants_whitelist_omission (rand : Nat → ℚ) (gh : String → Nat)
    (q : JSVal) (api : Option ApiData) (d : DashboardData)
    (hok : generateQuerySpecificData rand gh q api = .ok d) :
    (∀ k vm, (k, vm) ∈ d.pollutants → k ∈ pollutantWhitelist) ∧
    (∀ a m an, api = some a → a.metadata = some m → m.analysis = some an →
      (((an.results.getD emptyResults).pm25 = none →
          ∀ vm, ("PM2.5", vm) ∉ d.pollutants) ∧
       ((an.results.getD emptyResults).o3 = none →
          ∀ vm, ("O3", vm) ∉ d.pollutants) ∧
       ((an.results.getD emptyResults).no2 = none →
          ∀ vm, ("NO2", vm) ∉ d.pollutants) ∧
       ((an.results.getD emptyResults).ch2o = none →
          ∀ vm, ("CH2O", vm) ∉ d.pollutants) ∧
       ((an.results.getD emptyResults).co = none →
          ∀ vm, ("CO", vm) ∉ d.pollutants) ∧
       ((an.results.getD emptyResults).aod = none →
          ∀ vm, ("AOD", vm) ∉ d.pollutants))) := by
  by_cases hpath : apiPathTaken api = false
  · rw [gQSD_fallback rand gh q api hpath] at hok
    injection hok with hok
    subst hok
    constructor
    · intro k vm hmem
      simp only [fallbackData, List.mem_cons, List.not_mem_nil, or_false,
        Prod.mk.injEq] at hmem
      rcases hmem with ⟨rfl, _⟩ | ⟨rfl, _⟩ <;> decide
    · intro a m an h1 h2 h3
      exfalso
      subst h1
      simp [apiPathTaken, h2, h3] at hpath
  · rw [Bool.not_eq_false] at hpath
    obtain ⟨a, ha⟩ : ∃ a, api = some a := by
      cases api with
      | none => simp [apiPathTaken] at hpath
      | some a => exact ⟨a, rfl⟩
    subst ha
    obtain ⟨m, hm⟩ : ∃ m, a.metadata = some m := by
      cases hm : a.metadata with
      | none => simp [apiPathTaken, hm] at hpath
      | some m => exact ⟨m, rfl⟩
    obtain ⟨an, han⟩ : ∃ an, m.analysis = some an := by
      cases han : m.analysis with
      | none => simp [apiPathTaken, hm, han] at hpath
      | some an => exact ⟨an, rfl⟩
    rw [gQSD_api rand gh q _ a m an rfl hm han] at hok
    obtain ⟨-, hpol⟩ := apiBranch_fields rand gh q a an d hok
    constructor
    · intro k vm hmem
      rw [hpol] at hmem
      rcases mem_pollutantsOf hmem with ⟨rfl, -⟩ | ⟨rfl, -⟩ | ⟨rfl, -⟩ |
        ⟨rfl, -⟩ | ⟨rfl, -⟩ | ⟨rfl, -⟩ <;> decide
    · intro a2 m2 an2 h1 h2 h3
      injection h1 with h1
      subst h1
      rw [hm] at h2
      injection h2 with h2
      subst h2
      rw [han] at h3
      injection h3 with h3
      subst h3
      rw [hpol]
      refine ⟨?_, ?_, ?_, ?_, ?_, ?_⟩ <;>
      · intro hnone vm hmem
        rcases mem_pollutantsOf hmem with ⟨he, hne⟩ | ⟨he, hne⟩ | ⟨he, hne⟩ |
          ⟨he, hne⟩ | ⟨he, hne⟩ | ⟨he, hne⟩ <;>
          first
            | exact hne hnone
            | exact absurd he (by decide)

/-- Witness for C6 (amended) at `payloadAqiMissing`: the produced map is
whitelisted and PM2.5, absent from the payload, is omitted. -/
theorem pollutants_whitelist_omission_witness :
    generateQuerySpecificData rand0 hours0 .nullV (some payloadAqiMissing) = .ok dMissing ∧
    (∀ k vm, (k, vm) ∈ dMissing.pollutants → k ∈ pollutantWhitelist) ∧
    (∀ vm, ("PM2.5", vm) ∉ dMissing.pollutants) := by
  refine ⟨dMissing_ok, ?_, ?_⟩
  · exact (pollutants_whitelist_omission rand0 hours0 .nullV (some payloadAqiMissing)
      dMissing dMissing_ok).1
  · exact ((pollutants_whitelist_omission rand0 hours0 .nullV (some payloadAqiMissing)
      dMissing dMissing_ok).2 payloadAqiMissing ⟨some anEmpty⟩ anEmpty rfl rfl rfl).1 rfl

/-- String equality reduces to character-list equality. -/
theorem string_toList_inj (a b : String) (h : a.toList = b.toList) : a = b := by
  cases a
  cases b
  simpa [String.toList, String.ext_iff] using h

/-- On pairs whose type is one of `line`/`bar`/`map` and whose title is
present, the joined dedup key determines the pair: the three type names
share no first character, so the key cannot conflate distinct pairs. -/
theorem pairKeyStr_inj (t1 t2 : Option String) (x1 x2 : String)
    (h1 : t1 = some "line" ∨ t1 = some "bar" ∨ t1 = some "map")
    (h2 : t2 = some "line" ∨ t2 = some "bar" ∨ t2 = some "map")
    (he : pairKeyStr (t1, some x1) = pairKeyStr (t2, some x2)) :
    t1 = t2 ∧ x1 = x2 := by
  have hl := congrArg String.data he
  simp only [pairKeyStr, optStr, String.data_append] at hl
  rcases h1 with rfl | rfl | rfl <;> rcases h2 with rfl | rfl | rfl <;>
    simp only [] at hl <;>
    first
      | (refine ⟨rfl, ?_⟩
         apply string_toList_inj
         simpa [String.toList] using hl)
      | simp [String.ext_iff] at hl

/-- Key-set membership agrees with pair-set membership on constrained
pairs. -/
theorem key_mem_iff_pair_mem (v : Viz) (seenP : List (Option String × Option String))
    (hv : goodPair (v.type, v.title))
    (hseen : ∀ p ∈ seenP, goodPair p) :
    vizKey v ∈ seenP.map pairKeyStr ↔ (v.type, v.title) ∈ seenP := by
  constructor
  · intro h
    obtain ⟨p, hp, hpe⟩ := List.mem_map.1 h
    obtain ⟨hpt, x2, hpx⟩ := hseen p hp
    obtain ⟨hvt, x1, hvx⟩ := hv
    have hkey : pairKeyStr (p.1, some x2) = pairKeyStr (v.type, some x1) := by
      rw [← hpx, ← hvx]
      show pairKeyStr p = vizKey v
      exact hpe
    obtain ⟨ht, hx⟩ := pairKeyStr_inj p.1 v.type x2 x1 hpt hvt hkey
    have : p = (v.type, v.title) := by
      obtain ⟨pa, pb⟩ := p
      simp only at hpx ht
      simp only at hvx
      simp [hpx, ht, hx, hvx]
    rw [← this]
    exact hp
  · intro h
    exact List.mem_map.2 ⟨(v.type, v.title), h, rfl⟩

/-- The code's seen-set filter loop equals the spec's pair-dedup of the
drop-filtered list, for any coherent seen state. -/
theorem filterVizAux_eq (vs : List Viz) (seenP : List (Option String × Option String))
    (hty : ∀ v ∈ vs, v.type = some "line" ∨ v.type = some "bar" ∨ v.type = some "map")
    (hti : ∀ v ∈ vs, v.title ≠ none)
    (hseen : ∀ p ∈ seenP, goodPair p) :
    filterVizAux vs (seenP.map pairKeyStr) =
      specDedupAux (vs.filter (fun v => !specDrop v)) seenP := by
  induction vs generalizing seenP with
  | nil => rfl
  | cons v rest ih =>
    have hvty := hty v (List.mem_cons_self _ _)
    have hvti := hti v (List.mem_cons_self _ _)
    obtain ⟨x, hx⟩ : ∃ x, v.title = some x := by
      cases hv : v.title with
      | none => exact absurd hv hvti
      | some x => exact ⟨x, rfl⟩
    have hty2 := fun u hu => hty u (List.mem_cons_of_mem _ hu)
    have hti2 := fun u hu => hti u (List.mem_cons_of_mem _ hu)
    by_cases hline : v.type = some "line"
    · have hdrop : specDrop v = true := by simp [specDrop, hline]
      simp only [filterVizAux, if_pos hline, List.filter_cons, hdrop, Bool.not_true]
      simp only [Bool.false_eq_true, if_false]
      exact ih seenP hty2 hti2 hseen
    · by_cases hpc : titleIsPollutantComparison v = true
      · have hdrop : specDrop v = true := by
          simp only [titleIsPollutantComparison, hx, Bool.and_eq_true,
            decide_eq_true_eq] at hpc
          simp [specDrop, hx, hpc.2]
        simp only [filterVizAux, if_neg hline, if_pos hpc, List.filter_cons, hdrop,
          Bool.not_true]
        simp only [Bool.false_eq_true, if_false]
        exact ih seenP hty2 hti2 hseen
      · have hdrop : specDrop v = false := by
          simp only [titleIsPollutantComparison, hx, Bool.and_eq_true,
            decide_eq_true_eq, not_and] at hpc
          by_cases hxe : x = ""
          · subst hxe
            simp [specDrop, hline, hx]
            decide
          · have := hpc hxe
            simp [specDrop, hline, hx, this]
        have hmemiff := key_mem_iff_pair_mem v seenP ⟨hvty, x, hx⟩ hseen
        simp only [filterVizAux, if_neg hline, if_neg hpc, List.filter_cons, hdrop,
          Bool.not_false, if_pos, specDedupAux]
        by_cases hmem : (v.type, v.title) ∈ seenP
        · rw [if_pos (hmemiff.2 hmem), if_pos hmem]
          exact ih seenP hty2 hti2 hseen
        · rw [if_neg (fun hk => hmem (hmemiff.1 hk)), if_neg hmem]
          congr 1
          have hcons : vizKey v :: seenP.map pairKeyStr =
              ((v.type, v.title) :: seenP).map pairKeyStr := rfl
          rw [hcons]
          exact ih ((v.type, v.title) :: seenP)
            hty2 hti2
            (by
              intro p hp
              rcases List.mem_cons.1 hp with rfl | hp
              · exact ⟨hvty, x, hx⟩
              · exact hseen p hp)

/-- C5: on every list of data-model visualizations (type among
`line`/`bar`/`map`, title present), the code's filter equals the
spec-side pipeline: drop `line` entries, drop titles containing
"pollutant comparison" case-insensitively, then deduplicate by the pair
`(type, title)` keeping first occurrences, order preserved. -/
theorem visualizationFilter_spec (vs : List Viz)
    (hty : ∀ v ∈ vs, v.type = some "line" ∨ v.type = some "bar" ∨ v.type = some "map")
    (hti : ∀ v ∈ vs, v.title ≠ none) :
    filterVisualizations vs = specVizFilter vs := by
  have h := filterVizAux_eq vs [] hty hti (by intro p hp; cases hp)
  simpa [filterVisualizations, specVizFilter] using h

/-- Witness for C5 at the spec's example
`[{line,...}, {bar,"X"}, {bar,"X"}, {map,"Pollutant Comparison"}]`, which
filters to `[{bar,"X"}]`. -/
theorem visualizationFilter_spec_witness :
    (∀ v ∈ [exLine, exBarX, exBarX, exMapPC],
      v.type = some "line" ∨ v.type = some "bar" ∨ v.type = some "map") ∧
    (∀ v ∈ [exLine, exBarX, exBarX, exMapPC], v.title ≠ none) ∧
    filterVisualizations [exLine, exBarX, exBarX, exMapPC] =
      specVizFilter [exLine, exBarX, exBarX, exMapPC] ∧
    filterVisualizations [exLine, exBarX, exBarX, exMapPC] = [exBarX] :=
  ⟨by decide, by decide, visualizationFilter_spec _ (by decide) (by decide), by decide⟩

/-- C8: `generateHeatmapPoints(centerLat, centerLon, baseValue)` returns
`1 + 30` samples: the anchor `(centerLat, centerLon, min(1, baseValue/100))`
first, then 30 samples at a random polar offset with distance in
`[0, 0.02)` and angle in `[0, 2π)` converted to a lat/lon delta, each with
value `max(0, baseValue + v)` for a perturbation `v` in `[-10, 10)` and
intensity `min(1, value/100)`. -/
theorem heatmapPoints_spec (rand : Nat → ℝ) (lat lon v : ℝ)
    (hrand : ∀ k, 0 ≤ rand k ∧ rand k < 1) :
    (generateHeatmapPoints rand lat lon v).length = 1 + 30 ∧
    (generateHeatmapPoints rand lat lon v).getD 0 (0, 0, 0) =
      (lat, lon, min 1 (v / 100)) ∧
    (∀ i : Nat, i < 30 →
      ∃ dist angle vv : ℝ,
        0 ≤ dist ∧ dist < 0.02 ∧ 0 ≤ angle ∧ angle < 2 * Real.pi ∧
        -10 ≤ vv ∧ vv < 10 ∧
        (generateHeatmapPoints rand lat lon v).getD (i + 1) (0, 0, 0) =
          (lat + dist * Real.cos angle, lon + dist * Real.sin angle,
           min 1 (max 0 (v + vv) / 100))) := by
  refine ⟨by simp [generateHeatmapPoints], rfl, ?_⟩
  intro i hi
  obtain ⟨hd0, hd1⟩ := hrand (3 * i)
  obtain ⟨ha0, ha1⟩ := hrand (3 * i + 1)
  obtain ⟨hv0, hv1⟩ := hrand (3 * i + 2)
  have hpi : (0 : ℝ) < 2 * Real.pi := by positivity
  refine ⟨rand (3 * i) * 0.02, rand (3 * i + 1) * (2 * Real.pi),
    rand (3 * i + 2) * 20 - 10, ?_, ?_, ?_, ?_, ?_, ?_, ?_⟩
  · positivity
  · nlinarith
  · positivity
  · nlinarith
  · nlinarith
  · nlinarith
  · show ((lat, lon, min 1 (v / 100)) ::
      (List.range 30).map _).getD (i + 1) (0, 0, 0) = _
    rw [List.getD_cons_succ, getD_map_range _ _ _ _ hi]

/-- Witness for C8 at the center `(0, 0)`, base value 50 and the
constant-zero random stream. -/
theorem heatmapPoints_spec_witness :
    (∀ k, 0 ≤ rand0R k ∧ rand0R k < 1) ∧
    ((generateHeatmapPoints rand0R 0 0 50).length = 1 + 30 ∧
     (generateHeatmapPoints rand0R 0 0 50).getD 0 (0, 0, 0) =
       (0, 0, min 1 ((50 : ℝ) / 100)) ∧
     (∀ i : Nat, i < 30 →
       ∃ dist angle vv : ℝ,
         0 ≤ dist ∧ dist < 0.02 ∧ 0 ≤ angle ∧ angle < 2 * Real.pi ∧
         -10 ≤ vv ∧ vv < 10 ∧
         (generateHeatmapPoints rand0R 0 0 50).getD (i + 1) (0, 0, 0) =
           (0 + dist * Real.cos angle, 0 + dist * Real.sin angle,
            min 1 (max 0 (50 + vv) / 100)))) :=
  ⟨fun _ => ⟨by norm_num [rand0R], by norm_num [rand0R]⟩,
   heatmapPoints_spec rand0R 0 0 50 (fun _ => ⟨by norm_num [rand0R], by norm_num [rand0R]⟩)⟩
